import Mathlib

/-!
Verification development for the MornSteamUploadHelper monitoring core.

The definitions below are a shallow embedding of the Python source:

* text is `List Char`; the Python substring operators `in` and `str.find`
  are embedded as `pyContains` and `pyFindFrom`;
* the login-log classifier embeds `LoginMonitor._check_log_content`
  (src/platform_helpers.py), split into the per-buffer rule chain
  (`classifyNewContent`) and the multi-file tail-reading wrapper
  (`checkLogContent`) that threads a per-path offset map;
* the polling loops of `LoginMonitor._monitor_windows` and
  `LoginMonitor._monitor_macos` are embedded as recursive functions over a
  per-tick environment (stop flag, OS probe outcome, file-system snapshot),
  returning the list of callback invocations they perform;
* `ConsoleMonitor.check_console_status`, the console-closed polling loop of
  src/console_monitor.py, the upload-completion monitor of
  src/upload_manager.py and the clipboard/keystroke delivery scripts of
  src/command_sender.py are embedded likewise.

File reads are modelled on a file-system snapshot `String -> Option (List Char)`
keyed by normalized (os.path.abspath) paths; the normalization itself is an
explicit parameter `npath`, since the source stores initial offsets under the
raw candidate path but reads them back under the normalized path.
-/

/-- Whether `sub` occurs in `s` at index `i` (Python slice test). -/
def occursAt (sub s : List Char) (i : Nat) : Bool :=
  sub.isPrefixOf (s.drop i)

/-- Embedding of Python `s.find(sub, start)`: the least index `i ≥ start`
at which `sub` occurs in `s`, or `none` (Python `-1`). -/
def pyFindFrom (s sub : List Char) (start : Nat) : Option Nat :=
  (List.range (s.length + 1)).find? (fun i => Nat.ble start i && occursAt sub s i)

/-- Embedding of Python `sub in s`. -/
def pyContains (s sub : List Char) : Bool :=
  (pyFindFrom s sub 0).isSome

/-- Marker string: `"Waiting for user info..."`. -/
def waitingUserInfo : List Char := "Waiting for user info...".toList

/-- Marker string: `"OK"`. -/
def okMarker : List Char := "OK".toList

/-- Marker string: `"Logged in OK"`. -/
def loggedInOkMarker : List Char := "Logged in OK".toList

/-- Marker string: `"Logging in user"`. -/
def loggingInUserMarker : List Char := "Logging in user".toList

/-- Marker string: `"Steam>"`. -/
def steamPromptMarker : List Char := "Steam>".toList

/-- Marker string: `"Waiting for confirmation"`. -/
def waitingConfirmMarker : List Char := "Waiting for confirmation".toList

/-- Marker string: `"Steam Guard mobile authenticator"`. -/
def steamGuardMobileMarker : List Char := "Steam Guard mobile authenticator".toList

/-- The fixed login-failure phrases of `_check_log_content`. -/
def failurePhrases : List (List Char) :=
  ["FAILED login".toList, "Invalid Password".toList, "Rate Limit Exceeded".toList,
   "Two-factor code mismatch".toList, "ERROR (Two-factor code mismatch)".toList]

/-- Status symbols returned by `LoginMonitor._check_log_content`. -/
inductive LoginStatus where
  | success
  | failed
  | mobile2faWaiting
  | unknown
deriving DecidableEq

/-- First success rule of `_check_log_content`: the buffer contains
`"Waiting for user info..."` and `"OK"`, and `find("OK", user_info_pos)`
lands strictly after `user_info_pos`. -/
def okAfterUserInfo (c : List Char) : Bool :=
  match pyFindFrom c waitingUserInfo 0 with
  | some u =>
    match pyFindFrom c okMarker u with
    | some o => decide (u < o)
    | none => false
  | none => false

/-- Condition of the first success rule. -/
def successCond1 (c : List Char) : Bool :=
  pyContains c waitingUserInfo && pyContains c okMarker && okAfterUserInfo c

/-- Condition of the second success rule (`"Logged in OK"`). -/
def successCond2 (c : List Char) : Bool :=
  pyContains c loggedInOkMarker

/-- Condition of the third success rule (`"Logging in user"` with `"OK"`
and the `"Steam>"` prompt). -/
def successCond3 (c : List Char) : Bool :=
  pyContains c loggingInUserMarker && pyContains c okMarker && pyContains c steamPromptMarker

/-- First pending rule (`"Waiting for confirmation"`). -/
def pendingCond1 (c : List Char) : Bool :=
  pyContains c waitingConfirmMarker

/-- Second pending rule: `"Steam Guard mobile authenticator"` present while
`"Waiting for user info..."` is absent. -/
def pendingCond2 (c : List Char) : Bool :=
  pyContains c steamGuardMobileMarker && !(pyContains c waitingUserInfo)

/-- Failure rule: any of the fixed failure phrases is present. -/
def failedCond (c : List Char) : Bool :=
  failurePhrases.any (fun p => pyContains c p)

/-- The per-buffer rule chain of `LoginMonitor._check_log_content`
(src/platform_helpers.py lines 262-313), evaluated top to bottom with
first match winning. -/
def classifyNewContent (c : List Char) : LoginStatus :=
  if successCond1 c then .success
  else if successCond2 c then .success
  else if successCond3 c then .success
  else if pendingCond1 c then .mobile2faWaiting
  else if pendingCond2 c then .mobile2faWaiting
  else if failedCond c then .failed
  else .unknown

/-- The success marker of claim C1: one of the three success-rule shapes. -/
def claimSuccessMarker (c : List Char) : Bool :=
  successCond1 c || successCond2 c || successCond3 c

/-- The pending marker of claim C1: `"Waiting for confirmation"` or
`"Steam Guard mobile authenticator"`. -/
def claimPendingMarker (c : List Char) : Bool :=
  pyContains c waitingConfirmMarker || pyContains c steamGuardMobileMarker

/-- C1: for every text buffer that contains both a success marker and a
mobile-confirmation-pending marker, the classifier returns `success` and
never `mobile2faWaiting`: the success rules are evaluated before the
pending rules and later rules never override an earlier success. -/
theorem classify_success_beats_pending (c : List Char)
    (hs : claimSuccessMarker c = true) (_hp : claimPendingMarker c = true) :
    classifyNewContent c = .success := by
  unfold claimSuccessMarker at hs
  unfold classifyNewContent
  cases h1 : successCond1 c <;> cases h2 : successCond2 c <;>
    cases h3 : successCond3 c <;> simp_all

/-- Witness for C1 at a concrete buffer holding both markers. -/
theorem classify_success_beats_pending_witness :
    claimSuccessMarker ("Waiting for user info...OK Waiting for confirmation".toList) = true ∧
    claimPendingMarker ("Waiting for user info...OK Waiting for confirmation".toList) = true ∧
    classifyNewContent ("Waiting for user info...OK Waiting for confirmation".toList) = .success :=
  ⟨by decide, by decide,
    classify_success_beats_pending _ (by decide) (by decide)⟩

/-- Lookup in the per-path offset map (a Python dict as an association
list; later `pySet` entries are prepended and shadow older ones). -/
def lookupPos (m : List (String × Nat)) (k : String) : Option Nat :=
  (m.find? (fun e => e.1 == k)).map (fun e => e.2)

/-- Embedding of `start_positions.get(path, 0)`. -/
def pyGet (m : List (String × Nat)) (k : String) : Nat :=
  (lookupPos m k).getD 0

/-- Embedding of `start_positions[path] = v`. -/
def pySet (m : List (String × Nat)) (k : String) (v : Nat) : List (String × Nat) :=
  (k, v) :: m

/-- Embedding of the offset initialization of `LoginMonitor._monitor_windows`
(src/platform_helpers.py lines 326-337): every candidate path that exists is
given its current size as offset, keyed by the RAW candidate path; missing
files get no entry.  `npath` is `os.path.abspath` and `fs` is the
file-system snapshot keyed by normalized paths. -/
def initLogPositions (npath : String → String) (files : List String)
    (fs : String → Option (List Char)) : List (String × Nat) :=
  match files with
  | [] => []
  | p :: rest =>
    match fs (npath p) with
    | some c => pySet (initLogPositions npath rest fs) p c.length
    | none => initLogPositions npath rest fs

/-- A contiguous byte range `[lo, hi)` of one file read by a single call. -/
structure ReadSeg where
  path : String
  lo : Nat
  hi : Nat
deriving DecidableEq

/-- Result of one `_check_log_content` call: the classified status, the
updated offset map, the concatenation of all newly read text, and the
per-file ranges that were read. -/
structure CheckResult where
  status : LoginStatus
  pos : List (String × Nat)
  text : List Char
  reads : List ReadSeg

/-- Embedding of `LoginMonitor._check_log_content` (src/platform_helpers.py
lines 221-319): walk the candidate paths in order; a missing file is
skipped; an existing file is read from the stored offset (keyed by the
normalized path, defaulting to 0) to end of file, its offset is advanced to
the end position, and the fresh text is classified; the first classified
match is returned at once, leaving later candidates unread. -/
def checkLogContent (npath : String → String) (fs : String → Option (List Char)) :
    List String → List (String × Nat) → CheckResult
  | [], pos => ⟨.unknown, pos, [], []⟩
  | p :: rest, pos =>
    match fs (npath p) with
    | none => checkLogContent npath fs rest pos
    | some content =>
      let q := npath p
      let lo := pyGet pos q
      let nc := content.drop lo
      let hi := lo + nc.length
      let pos2 := pySet pos q hi
      if nc.isEmpty then
        let r := checkLogContent npath fs rest pos2
        ⟨r.status, r.pos, r.text, ⟨q, lo, hi⟩ :: r.reads⟩
      else
        match classifyNewContent nc with
        | .unknown =>
          let r := checkLogContent npath fs rest pos2
          ⟨r.status, r.pos, nc ++ r.text, ⟨q, lo, hi⟩ :: r.reads⟩
        | st => ⟨st, pos2, nc, [⟨q, lo, hi⟩]⟩

theorem pyGet_pySet (m : List (String × Nat)) (k : String) (v : Nat) (q : String) :
    pyGet (pySet m k v) q = if k == q then v else pyGet m q := by
  cases h : (k == q) <;> simp [pyGet, pySet, lookupPos, List.find?_cons, h]

/-- Offsets never move backwards across one `checkLogContent` call. -/
theorem checkLog_pos_mono (npath : String → String) (fs : String → Option (List Char)) :
    ∀ (files : List String) (pos : List (String × Nat)) (q : String),
      pyGet pos q ≤ pyGet (checkLogContent npath fs files pos).pos q := by
  intro files
  induction files with
  | nil => intro pos q; simp [checkLogContent]
  | cons p rest ih =>
    intro pos q
    simp only [checkLogContent]
    cases hf : fs (npath p) with
    | none => exact ih pos q
    | some content =>
      simp only []
      have hstep : ∀ v, pyGet pos (npath p) ≤ v →
          pyGet pos q ≤ pyGet (pySet pos (npath p) v) q := by
        intro v hv
        rw [pyGet_pySet]
        by_cases hq : npath p = q
        · subst hq; simpa using hv
        · simp [beq_eq_false_iff_ne.mpr hq]
      have hv : pyGet pos (npath p) ≤
          pyGet pos (npath p) + (content.drop (pyGet pos (npath p))).length :=
        Nat.le_add_right _ _
      split
      · exact le_trans (hstep _ hv) (ih _ q)
      · split
        all_goals first
          | exact le_trans (hstep _ hv) (ih _ q)
          | exact hstep _ hv

/-- Every range read by one `checkLogContent` call ends at or below the
offset stored for its path when the call returns. -/
theorem checkLog_reads_hi_le (npath : String → String) (fs : String → Option (List Char)) :
    ∀ (files : List String) (pos : List (String × Nat)),
      ∀ s ∈ (checkLogContent npath fs files pos).reads,
        s.hi ≤ pyGet (checkLogContent npath fs files pos).pos s.path := by
  intro files
  induction files with
  | nil => intro pos s hs; simp [checkLogContent] at hs
  | cons p rest ih =>
    intro pos
    simp only [checkLogContent]
    cases hf : fs (npath p) with
    | none => exact ih pos
    | some content =>
      dsimp only
      have hself : ∀ v, pyGet (pySet pos (npath p) v) (npath p) = v := by
        intro v; rw [pyGet_pySet]; simp
      have hhead : ∀ v, v ≤ pyGet (checkLogContent npath fs rest (pySet pos (npath p) v)).pos
          (npath p) := by
        intro v
        calc v = pyGet (pySet pos (npath p) v) (npath p) := (hself v).symm
          _ ≤ _ := checkLog_pos_mono npath fs rest _ _
      split
      · intro s hs
        simp only [List.mem_cons] at hs
        rcases hs with rfl | hs
        · exact hhead _
        · exact ih _ s hs
      · split
        all_goals (
          intro s hs
          simp only [List.mem_cons, List.not_mem_nil, or_false] at hs
          first
            | (rcases hs with rfl | hs
               · exact hhead _
               · exact ih _ s hs)
            | (subst hs; exact (hself _).symm.le))

/-- Every range read by one `checkLogContent` call starts at or above the
offset stored for its path when the call begins. -/
theorem checkLog_reads_lo_ge (npath : String → String) (fs : String → Option (List Char)) :
    ∀ (files : List String) (pos : List (String × Nat)),
      ∀ s ∈ (checkLogContent npath fs files pos).reads,
        pyGet pos s.path ≤ s.lo := by
  intro files
  induction files with
  | nil => intro pos s hs; simp [checkLogContent] at hs
  | cons p rest ih =>
    intro pos
    simp only [checkLogContent]
    cases hf : fs (npath p) with
    | none => exact ih pos
    | some content =>
      dsimp only
      have hstep : ∀ q v, pyGet pos (npath p) ≤ v →
          pyGet pos q ≤ pyGet (pySet pos (npath p) v) q := by
        intro q v hv
        rw [pyGet_pySet]
        by_cases hq : npath p = q
        · subst hq; simpa using hv
        · simp [beq_eq_false_iff_ne.mpr hq]
      have htail : ∀ s, s ∈ (checkLogContent npath fs rest
            (pySet pos (npath p)
              (pyGet pos (npath p) + (content.drop (pyGet pos (npath p))).length))).reads →
          pyGet pos s.path ≤ s.lo := by
        intro s hs
        exact le_trans (hstep s.path _ (Nat.le_add_right _ _)) (ih _ s hs)
      split
      · intro s hs
        simp only [List.mem_cons] at hs
        rcases hs with rfl | hs
        · exact le_refl _
        · exact htail s hs
      · split
        all_goals (
          intro s hs
          simp only [List.mem_cons, List.not_mem_nil, or_false] at hs
          first
            | (rcases hs with rfl | hs
               · exact le_refl _
               · exact htail s hs)
            | (subst hs; exact le_refl _))

/-- C3 (amended): when `readNew` runs twice in succession on an unchanged
file set, no byte of any file is read by both calls: every range read by
the second call starts at or after the end of every range the first call
read from the same file.  (The original claim also asserted the second
call returns empty text, which the early-return refutes.) -/
theorem readnew_never_rereads (npath : String → String) (fs : String → Option (List Char))
    (files : List String) (pos : List (String × Nat)) :
    ∀ s1 ∈ (checkLogContent npath fs files pos).reads,
      ∀ s2 ∈ (checkLogContent npath fs files (checkLogContent npath fs files pos).pos).reads,
        s1.path = s2.path → s1.hi ≤ s2.lo := by
  intro s1 h1 s2 h2 hpath
  have hA := checkLog_reads_hi_le npath fs files pos s1 h1
  have hB := checkLog_reads_lo_ge npath fs files (checkLogContent npath fs files pos).pos s2 h2
  rw [hpath] at hA
  exact le_trans hA hB

/-- Identity path normalization (paths already in normal form). -/
def idPath : String → String := fun p => p

/-- Two candidate logs: the primary console log holds a success line, the
connection log holds two pending bytes. -/
def twoLogFs : String → Option (List Char) := fun q =>
  if q == "logs/console_log.txt" then some ("Logged in OK".toList)
  else if q == "logs/connection_log.txt" then some ("xy".toList)
  else none

/-- The candidate list for the two-log example. -/
def twoLogFiles : List String := ["logs/console_log.txt", "logs/connection_log.txt"]

/-- C3 counterexample: the first call classifies the console log and
early-returns without reading the connection log, so the second call —
with no bytes appended in between — still reads and returns fresh text,
refuting the claim that the second call returns no new content. -/
theorem readnew_second_call_reads_more :
    (checkLogContent idPath twoLogFs twoLogFiles []).status = .success ∧
    (checkLogContent idPath twoLogFs twoLogFiles
      (checkLogContent idPath twoLogFs twoLogFiles []).pos).text = "xy".toList ∧
    (checkLogContent idPath twoLogFs twoLogFiles
      (checkLogContent idPath twoLogFs twoLogFiles []).pos).text ≠ [] := by
  refine ⟨by decide, by decide, ?_⟩
  intro h
  simpa using congrArg List.length ((by decide :
    (checkLogContent idPath twoLogFs twoLogFiles
      (checkLogContent idPath twoLogFs twoLogFiles []).pos).text = "xy".toList).symm.trans h)

/-- Witness for the amended C3 theorem on the two-log example. -/
theorem readnew_never_rereads_witness :
    (⟨"logs/console_log.txt", 0, 12⟩ : ReadSeg) ∈
      (checkLogContent idPath twoLogFs twoLogFiles []).reads ∧
    (⟨"logs/console_log.txt", 12, 12⟩ : ReadSeg) ∈
      (checkLogContent idPath twoLogFs twoLogFiles
        (checkLogContent idPath twoLogFs twoLogFiles []).pos).reads ∧
    (12 : Nat) ≤ 12 :=
  ⟨by decide, by decide,
    readnew_never_rereads idPath twoLogFs twoLogFiles []
      ⟨"logs/console_log.txt", 0, 12⟩ (by decide)
      ⟨"logs/console_log.txt", 12, 12⟩ (by decide) rfl⟩

/-- A candidate path as produced by `_get_log_files`, containing a `..`
component (`os.path.join(steamcmd_dir, "..", "logs", "connection_log.txt")`). -/
def rawConnLogPath : String := "builder_osx/../logs/connection_log.txt"

/-- The normal form `os.path.abspath` returns for `rawConnLogPath`. -/
def normConnLogPath : String := "logs/connection_log.txt"

/-- Path normalization collapsing the one `..` component of the example
(the identity elsewhere), as `os.path.abspath` does. -/
def abspathDemo : String → String := fun p =>
  if p == rawConnLogPath then normConnLogPath else p

/-- File-system snapshot in which the connection log already holds a stale
`"Logged in OK"` line from a previous session when monitoring starts. -/
def staleFs : String → Option (List Char) := fun q =>
  if q == normConnLogPath then some ("Logged in OK".toList) else none

/-- C4 (code bug shown at the failing input): the session initialization
does store the existing file's size (12) as its offset, but keyed by the
raw `..`-path, while the per-tick reader looks the offset up under the
normalized path and gets the default 0 — so the very first check re-reads
the stale pre-session content and classifies it as a fresh login success,
contradicting the stated purpose of starting at end-of-file. -/
theorem stale_log_reclassified_after_init :
    pyGet (initLogPositions abspathDemo [rawConnLogPath] staleFs) rawConnLogPath = 12 ∧
    pyGet (initLogPositions abspathDemo [rawConnLogPath] staleFs) normConnLogPath = 0 ∧
    (checkLogContent abspathDemo staleFs [rawConnLogPath]
      (initLogPositions abspathDemo [rawConnLogPath] staleFs)).status = .success ∧
    (checkLogContent abspathDemo staleFs [rawConnLogPath]
      (initLogPositions abspathDemo [rawConnLogPath] staleFs)).text = "Logged in OK".toList := by
  refine ⟨by decide, by decide, by decide, by decide⟩

/-- Per-tick inputs of `LoginMonitor._monitor_windows`: the stop flag as
observed at the top of the tick, the `tasklist` probe outcome (`none` when
the call raised, `some out` when it returned stdout `out`), and the
file-system snapshot the log check reads. -/
structure WinTickEnv where
  stop : Bool
  probe : Option (List Char)
  fs : String → Option (List Char)

/-- The Windows liveness test `not result.stdout or "steamcmd.exe" not in
result.stdout` applied to a returned probe output. -/
def winProbeDead (out : List Char) : Bool :=
  out.isEmpty || !(pyContains out ("steamcmd.exe".toList))

/-- Whether the tick observes a dead process: a raising probe is caught
and observes nothing; a returning probe observes the liveness test. -/
def tickDeadObserved (e : WinTickEnv) : Bool :=
  match e.probe with
  | none => false
  | some out => winProbeDead out

/-- The five callbacks a login-monitoring session can invoke. -/
inductive MonitorEvent where
  | onSuccess
  | onFailure
  | onProcessEnded
  | onTimeout
  | onMobile2fa
deriving DecidableEq

/-- Embedding of the polling loop of `LoginMonitor._monitor_windows`
(src/platform_helpers.py lines 354-411): at each tick check the stop flag,
then the process probe, then classify freshly tailed log text; `success`,
`failed` and a dead process invoke their callback and break; a pending
mobile confirmation fires its callback only the first time and polling
continues; exhausting the tick budget invokes the timeout callback.
Returns the callback invocations in order. -/
def monitorWindowsFrom (npath : String → String) (env : Nat → WinTickEnv)
    (files : List String) :
    Nat → Nat → List (String × Nat) → Bool → List MonitorEvent
  | 0, _, _, _ => [.onTimeout]
  | fuel+1, t, pos, shown =>
    if (env t).stop then []
    else if tickDeadObserved (env t) then [.onProcessEnded]
    else
      let r := checkLogContent npath (env t).fs files pos
      match r.status with
      | .success => [.onSuccess]
      | .failed => [.onFailure]
      | .mobile2faWaiting =>
        if shown then monitorWindowsFrom npath env files fuel (t+1) r.pos shown
        else .onMobile2fa :: monitorWindowsFrom npath env files fuel (t+1) r.pos true
      | .unknown => monitorWindowsFrom npath env files fuel (t+1) r.pos shown

/-- One Windows monitoring session: offsets are initialized from the
launch-time snapshot `initFs`, the one-shot flag is cleared, and the loop
runs for at most `maxChecks` ticks. -/
def monitorWindows (npath : String → String) (env : Nat → WinTickEnv)
    (files : List String) (maxChecks : Nat)
    (initFs : String → Option (List Char)) : List MonitorEvent :=
  monitorWindowsFrom npath env files maxChecks 0 (initLogPositions npath files initFs) false

/-- Per-tick inputs of `LoginMonitor._monitor_macos`: the stop flag, the
exit code and stripped stdout of the window-count osascript, and the exit
code and stripped stdout of the classification osascript. -/
structure MacTickEnv where
  stop : Bool
  winCheckCode : Nat
  winCheckOut : List Char
  classifyCode : Nat
  classifyOut : List Char

/-- Embedding of the polling loop of `LoginMonitor._monitor_macos`
(src/platform_helpers.py lines 425-500): a nonzero window-count exit code
or a `"0"` window count invokes the process-ended callback; a successful
classification call dispatches on its output; a failing classification
call is ignored and polling continues. -/
def monitorMacosFrom (env : Nat → MacTickEnv) :
    Nat → Nat → Bool → List MonitorEvent
  | 0, _, _ => [.onTimeout]
  | fuel+1, t, shown =>
    if (env t).stop then []
    else if (env t).winCheckCode ≠ 0 ∨ (env t).winCheckOut = "0".toList then [.onProcessEnded]
    else if (env t).classifyCode = 0 then
      if (env t).classifyOut = "logged_in".toList then [.onSuccess]
      else if (env t).classifyOut = "failed".toList then [.onFailure]
      else if (env t).classifyOut = "mobile_2fa".toList then
        if shown then monitorMacosFrom env fuel (t+1) shown
        else .onMobile2fa :: monitorMacosFrom env fuel (t+1) true
      else monitorMacosFrom env fuel (t+1) shown
    else monitorMacosFrom env fuel (t+1) shown

/-- One macOS monitoring session. -/
def monitorMacos (env : Nat → MacTickEnv) (maxChecks : Nat) : List MonitorEvent :=
  monitorMacosFrom env maxChecks 0 false

/-- Number of terminal-callback invocations in a session trace. -/
def countTerminal : List MonitorEvent → Nat
  | [] => 0
  | .onMobile2fa :: r => countTerminal r
  | _ :: r => countTerminal r + 1

/-- Number of mobile-confirmation callback invocations in a session trace. -/
def countMobile : List MonitorEvent → Nat
  | [] => 0
  | .onMobile2fa :: r => countMobile r + 1
  | _ :: r => countMobile r

theorem win_mobile_zero_of_shown (npath : String → String) (env : Nat → WinTickEnv)
    (files : List String) :
    ∀ (fuel t : Nat) (pos : List (String × Nat)),
      countMobile (monitorWindowsFrom npath env files fuel t pos true) = 0 := by
  intro fuel
  induction fuel with
  | zero => intro t pos; rfl
  | succ f ih =>
    intro t pos
    simp only [monitorWindowsFrom]
    split
    · rfl
    · split
      · rfl
      · split
        · rfl
        · rfl
        · simp only [if_true]
          exact ih _ _
        · exact ih _ _

theorem win_terminal_le_one (npath : String → String) (env : Nat → WinTickEnv)
    (files : List String) :
    ∀ (fuel t : Nat) (pos : List (String × Nat)) (shown : Bool),
      countTerminal (monitorWindowsFrom npath env files fuel t pos shown) ≤ 1 := by
  intro fuel
  induction fuel with
  | zero => intro t pos shown; exact le_refl 1
  | succ f ih =>
    intro t pos shown
    simp only [monitorWindowsFrom]
    split
    · exact Nat.zero_le 1
    · split
      · exact le_refl 1
      · split
        · exact le_refl 1
        · exact le_refl 1
        · cases shown
          · simp only [Bool.false_eq_true, if_false, countTerminal]
            exact ih _ _ _
          · simp only [if_true]
            exact ih _ _ _
        · exact ih _ _ _

theorem win_mobile_le_one (npath : String → String) (env : Nat → WinTickEnv)
    (files : List String) :
    ∀ (fuel t : Nat) (pos : List (String × Nat)) (shown : Bool),
      countMobile (monitorWindowsFrom npath env files fuel t pos shown) ≤ 1 := by
  intro fuel
  induction fuel with
  | zero => intro t pos shown; exact Nat.zero_le 1
  | succ f ih =>
    intro t pos shown
    simp only [monitorWindowsFrom]
    split
    · exact Nat.zero_le 1
    · split
      · exact Nat.zero_le 1
      · split
        · exact Nat.zero_le 1
        · exact Nat.zero_le 1
        · cases shown
          · simp only [Bool.false_eq_true, if_false, countMobile,
              win_mobile_zero_of_shown npath env files]
            omega
          · simp only [if_true]
            exact ih _ _ _
        · exact ih _ _ _

theorem win_terminal_eq_one (npath : String → String) (env : Nat → WinTickEnv)
    (files : List String) (hstop : ∀ u, (env u).stop = false) :
    ∀ (fuel t : Nat) (pos : List (String × Nat)) (shown : Bool),
      countTerminal (monitorWindowsFrom npath env files fuel t pos shown) = 1 := by
  intro fuel
  induction fuel with
  | zero => intro t pos shown; rfl
  | succ f ih =>
    intro t pos shown
    simp only [monitorWindowsFrom, hstop, Bool.false_eq_true, if_false]
    split
    · rfl
    · split
      · rfl
      · rfl
      · cases shown
        · simp only [Bool.false_eq_true, if_false, countTerminal]
          exact ih _ _ _
        · simp only [if_true]
          exact ih _ _ _
      · exact ih _ _ _

theorem mac_mobile_zero_of_shown (env : Nat → MacTickEnv) :
    ∀ (fuel t : Nat), countMobile (monitorMacosFrom env fuel t true) = 0 := by
  intro fuel
  induction fuel with
  | zero => intro t; rfl
  | succ f ih =>
    intro t
    simp only [monitorMacosFrom]
    split
    · rfl
    · split
      · rfl
      · split
        · split
          · rfl
          · split
            · rfl
            · split
              · simp only [if_true]
                exact ih _
              · exact ih _
        · exact ih _

theorem mac_terminal_le_one (env : Nat → MacTickEnv) :
    ∀ (fuel t : Nat) (shown : Bool),
      countTerminal (monitorMacosFrom env fuel t shown) ≤ 1 := by
  intro fuel
  induction fuel with
  | zero => intro t shown; exact le_refl 1
  | succ f ih =>
    intro t shown
    simp only [monitorMacosFrom]
    split
    · exact Nat.zero_le 1
    · split
      · exact le_refl 1
      · split
        · split
          · exact le_refl 1
          · split
            · exact le_refl 1
            · split
              · cases shown
                · simp only [Bool.false_eq_true, if_false, countTerminal]
                  exact ih _ _
                · simp only [if_true]
                  exact ih _ _
              · exact ih _ _
        · exact ih _ _

theorem mac_mobile_le_one (env : Nat → MacTickEnv) :
    ∀ (fuel t : Nat) (shown : Bool),
      countMobile (monitorMacosFrom env fuel t shown) ≤ 1 := by
  intro fuel
  induction fuel with
  | zero => intro t shown; exact Nat.zero_le 1
  | succ f ih =>
    intro t shown
    simp only [monitorMacosFrom]
    split
    · exact Nat.zero_le 1
    · split
      · exact Nat.zero_le 1
      · split
        · split
          · exact Nat.zero_le 1
          · split
            · exact Nat.zero_le 1
            · split
              · cases shown
                · simp only [Bool.false_eq_true, if_false, countMobile,
                    mac_mobile_zero_of_shown env]
                  omega
                · simp only [if_true]
                  exact ih _ _
              · exact ih _ _
        · exact ih _ _

theorem mac_terminal_eq_one (env : Nat → MacTickEnv) (hstop : ∀ u, (env u).stop = false) :
    ∀ (fuel t : Nat) (shown : Bool),
      countTerminal (monitorMacosFrom env fuel t shown) = 1 := by
  intro fuel
  induction fuel with
  | zero => intro t shown; rfl
  | succ f ih =>
    intro t shown
    simp only [monitorMacosFrom, hstop, Bool.false_eq_true, if_false]
    split
    · rfl
    · split
      · split
        · rfl
        · split
          · rfl
          · split
            · cases shown
              · simp only [Bool.false_eq_true, if_false, countTerminal]
                exact ih _ _
              · simp only [if_true]
                exact ih _ _
            · exact ih _ _
      · exact ih _ _

/-- An environment whose stop flag is already set at the first tick. -/
def stopTickEnv : Nat → WinTickEnv := fun _ => ⟨true, none, fun _ => none⟩

/-- C2 counterexample: a login-monitoring session halted by the stop flag
invokes none of the four terminal callbacks (and none of the five at all),
refuting "invokes exactly one of the four exactly once per session". -/
theorem login_monitor_stopped_session_no_callbacks :
    monitorWindows idPath stopTickEnv twoLogFiles 3 (fun _ => none) = [] ∧
    countTerminal (monitorWindows idPath stopTickEnv twoLogFiles 3 (fun _ => none)) = 0 :=
  ⟨rfl, rfl⟩

/-- C2 (amended): on both platforms a login-monitoring session invokes at
most one of the four terminal callbacks (hence each at most once) and the
mobile-confirmation callback at most once, no matter how many ticks
re-observe the same condition; when the stop flag is never raised, exactly
one terminal callback fires. -/
theorem login_monitor_callback_multiplicity (npath : String → String)
    (env : Nat → WinTickEnv) (menv : Nat → MacTickEnv) (files : List String)
    (maxW maxM : Nat) (initFs : String → Option (List Char)) :
    countTerminal (monitorWindows npath env files maxW initFs) ≤ 1 ∧
    countMobile (monitorWindows npath env files maxW initFs) ≤ 1 ∧
    ((∀ u, (env u).stop = false) →
      countTerminal (monitorWindows npath env files maxW initFs) = 1) ∧
    countTerminal (monitorMacos menv maxM) ≤ 1 ∧
    countMobile (monitorMacos menv maxM) ≤ 1 ∧
    ((∀ u, (menv u).stop = false) → countTerminal (monitorMacos menv maxM) = 1) :=
  ⟨win_terminal_le_one npath env files maxW 0 _ false,
   win_mobile_le_one npath env files maxW 0 _ false,
   fun hstop => win_terminal_eq_one npath env files hstop maxW 0 _ false,
   mac_terminal_le_one menv maxM 0 false,
   mac_mobile_le_one menv maxM 0 false,
   fun hstop => mac_terminal_eq_one menv hstop maxM 0 false⟩

/-- A quiet Windows environment: stop never raised, probe raising, no logs. -/
def quietWinEnv : Nat → WinTickEnv := fun _ => ⟨false, none, fun _ => none⟩

/-- A quiet macOS environment: stop never raised, one window, failing
classification probe. -/
def quietMacEnv : Nat → MacTickEnv := fun _ => ⟨false, 0, "1".toList, 1, []⟩

/-- Witness for the amended C2 theorem: with the stop flag never raised,
both monitors fire exactly one terminal callback. -/
theorem login_monitor_callback_multiplicity_witness :
    (∀ u, (quietWinEnv u).stop = false) ∧ (∀ u, (quietMacEnv u).stop = false) ∧
    countTerminal (monitorWindows idPath quietWinEnv twoLogFiles 2 (fun _ => none)) = 1 ∧
    countTerminal (monitorMacos quietMacEnv 2) = 1 :=
  ⟨fun _ => rfl, fun _ => rfl,
   (login_monitor_callback_multiplicity idPath quietWinEnv quietMacEnv twoLogFiles 2 2
      (fun _ => none)).2.2.1 (fun _ => rfl),
   (login_monitor_callback_multiplicity idPath quietWinEnv quietMacEnv twoLogFiles 2 2
      (fun _ => none)).2.2.2.2.2 (fun _ => rfl)⟩

theorem win_process_ended_mem (npath : String → String) (env : Nat → WinTickEnv)
    (files : List String) :
    ∀ (fuel t : Nat) (pos : List (String × Nat)) (shown : Bool),
      MonitorEvent.onProcessEnded ∈ monitorWindowsFrom npath env files fuel t pos shown →
      ∃ u out, (env u).probe = some out ∧ winProbeDead out = true := by
  intro fuel
  induction fuel with
  | zero => intro t pos shown h; simp [monitorWindowsFrom] at h
  | succ f ih =>
    intro t pos shown h
    by_cases hstop : (env t).stop = true
    · rw [monitorWindowsFrom, if_pos hstop] at h
      simp at h
    · by_cases hdead : tickDeadObserved (env t) = true
      · cases hp : (env t).probe with
        | none =>
          simp only [tickDeadObserved, hp] at hdead
          exact (Bool.false_ne_true hdead).elim
        | some out =>
          simp only [tickDeadObserved, hp] at hdead
          exact ⟨t, out, hp, hdead⟩
      · rw [monitorWindowsFrom, if_neg hstop, if_neg hdead] at h
        cases hst : (checkLogContent npath (env t).fs files pos).status
        all_goals simp only [hst] at h
        · simp at h
        · simp at h
        · cases shown
          · simp only [Bool.false_eq_true, if_false, List.mem_cons] at h
            rcases h with h | h
            · cases h
            · exact ih _ _ _ h
          · simp only [if_true] at h
            exact ih _ _ _ h
        · exact ih _ _ _ h

theorem mac_process_ended_mem (env : Nat → MacTickEnv) :
    ∀ (fuel t : Nat) (shown : Bool),
      MonitorEvent.onProcessEnded ∈ monitorMacosFrom env fuel t shown →
      ∃ u, (env u).winCheckCode ≠ 0 ∨ (env u).winCheckOut = "0".toList := by
  intro fuel
  induction fuel with
  | zero => intro t shown h; simp [monitorMacosFrom] at h
  | succ f ih =>
    intro t shown h
    by_cases hstop : (env t).stop = true
    · rw [monitorMacosFrom, if_pos hstop] at h
      simp at h
    · by_cases hdead : (env t).winCheckCode ≠ 0 ∨ (env t).winCheckOut = "0".toList
      · exact ⟨t, hdead⟩
      · rw [monitorMacosFrom, if_neg hstop, if_neg hdead] at h
        by_cases hcc : (env t).classifyCode = 0
        · rw [if_pos hcc] at h
          by_cases h1 : (env t).classifyOut = "logged_in".toList
          · rw [if_pos h1] at h; simp at h
          · rw [if_neg h1] at h
            by_cases h2 : (env t).classifyOut = "failed".toList
            · rw [if_pos h2] at h; simp at h
            · rw [if_neg h2] at h
              by_cases h3 : (env t).classifyOut = "mobile_2fa".toList
              · rw [if_pos h3] at h
                cases shown
                · simp only [Bool.false_eq_true, if_false, List.mem_cons] at h
                  rcases h with h | h
                  · cases h
                  · exact ih _ _ h
                · simp only [if_true] at h
                  exact ih _ _ h
              · rw [if_neg h3] at h
                exact ih _ _ h
        · rw [if_neg hcc] at h
          exact ih _ _ h

/-- A macOS environment whose window-count probe exits with status 1 from
the very first tick (a single failed osascript call). -/
def macProbeFailEnv : Nat → MacTickEnv := fun _ => ⟨false, 1, [], 0, []⟩

/-- C6 counterexample: one probe call that merely exits with nonzero
status makes the macOS login monitor report process-ended at once,
refuting "a single failed probe call never causes ProcessEnded". -/
theorem probe_nonzero_exit_reports_process_ended :
    monitorMacos macProbeFailEnv 5 = [MonitorEvent.onProcessEnded] := by
  decide

/-- C6 (amended): an exception raised by the per-tick probe is caught and
treated as no new information — ProcessEnded can only be reported when
some probe returned a result: on Windows an output that is empty or lacks
`steamcmd.exe`, on macOS a nonzero window-count exit code or a `"0"`
window count.  A probe that returns nonzero status or malformed output is
therefore treated as process-ended, not as status-unchanged. -/
theorem process_ended_needs_returning_probe :
    (∀ (npath : String → String) (env : Nat → WinTickEnv) (files : List String)
      (maxChecks : Nat) (initFs : String → Option (List Char)),
      MonitorEvent.onProcessEnded ∈ monitorWindows npath env files maxChecks initFs →
      ∃ u out, (env u).probe = some out ∧ winProbeDead out = true) ∧
    (∀ (menv : Nat → MacTickEnv) (maxChecks : Nat),
      MonitorEvent.onProcessEnded ∈ monitorMacos menv maxChecks →
      ∃ u, (menv u).winCheckCode ≠ 0 ∨ (menv u).winCheckOut = "0".toList) :=
  ⟨fun npath env files maxChecks _initFs h =>
      win_process_ended_mem npath env files maxChecks 0 _ false h,
   fun menv maxChecks h => mac_process_ended_mem menv maxChecks 0 false h⟩

/-- A Windows environment whose tasklist probe returns empty output. -/
def winEmptyProbeEnv : Nat → WinTickEnv := fun _ => ⟨false, some [], fun _ => none⟩

/-- Witness for the amended C6 theorem: the Windows monitor reports
process-ended only because a probe returned dead-indicating output. -/
theorem process_ended_needs_returning_probe_witness :
    MonitorEvent.onProcessEnded ∈ monitorWindows idPath winEmptyProbeEnv twoLogFiles 3
      (fun _ => none) ∧
    (∃ u out, (winEmptyProbeEnv u).probe = some out ∧ winProbeDead out = true) :=
  ⟨by decide,
   process_ended_needs_returning_probe.1 idPath winEmptyProbeEnv twoLogFiles 3
     (fun _ => none) (by decide)⟩

/-- The first `k` ticks of a Windows login-monitoring run are
non-terminal: the stop flag is down, the probe does not observe a dead
process, and the log classification yields neither success nor failure
(positions advance exactly as the loop advances them). -/
def ticksNonterminalW (npath : String → String) (env : Nat → WinTickEnv)
    (files : List String) : Nat → Nat → List (String × Nat) → Bool
  | 0, _, _ => true
  | k+1, t, pos =>
    if (env t).stop then false
    else if tickDeadObserved (env t) then false
    else
      match (checkLogContent npath (env t).fs files pos).status with
      | .success => false
      | .failed => false
      | _ =>
        ticksNonterminalW npath env files k (t+1)
          (checkLogContent npath (env t).fs files pos).pos

theorem win_stop_no_terminal_aux (npath : String → String) (env : Nat → WinTickEnv)
    (files : List String) :
    ∀ (k fuel t : Nat) (pos : List (String × Nat)) (shown : Bool), k < fuel →
      ticksNonterminalW npath env files k t pos = true → (env (t + k)).stop = true →
      countTerminal (monitorWindowsFrom npath env files fuel t pos shown) = 0 := by
  intro k
  induction k with
  | zero =>
    intro fuel t pos shown hk hnt hstop
    cases fuel with
    | zero => omega
    | succ f =>
      rw [Nat.add_zero] at hstop
      rw [monitorWindowsFrom, if_pos hstop]
      rfl
  | succ k ih =>
    intro fuel t pos shown hk hnt hstop
    rw [ticksNonterminalW] at hnt
    split at hnt
    · exact (Bool.false_ne_true hnt).elim
    · split at hnt
      · exact (Bool.false_ne_true hnt).elim
      · cases fuel with
        | zero => omega
        | succ f =>
          rename_i hstop0 hdead0
          rw [monitorWindowsFrom, if_neg hstop0, if_neg hdead0]
          have ht : t + 1 + k = t + (k + 1) := by omega
          cases hstatus : (checkLogContent npath (env t).fs files pos).status
          all_goals simp only [hstatus] at hnt ⊢
          · exact (Bool.false_ne_true hnt).elim
          · exact (Bool.false_ne_true hnt).elim
          · cases shown
            · simp only [Bool.false_eq_true, if_false, countTerminal]
              exact ih f (t + 1) _ true (by omega) hnt (by rw [ht]; exact hstop)
            · simp only [if_true]
              exact ih f (t + 1) _ true (by omega) hnt (by rw [ht]; exact hstop)
          · exact ih f (t + 1) _ shown (by omega) hnt (by rw [ht]; exact hstop)

/-- The first `k` ticks of a macOS login-monitoring run are non-terminal:
the stop flag is down, the window-count probe succeeds with a nonzero
count, and a successful classification call yields neither the logged-in
nor the failed output. -/
def ticksNonterminalM (env : Nat → MacTickEnv) : Nat → Nat → Bool
  | 0, _ => true
  | k+1, t =>
    if (env t).stop then false
    else if (env t).winCheckCode ≠ 0 ∨ (env t).winCheckOut = "0".toList then false
    else if (env t).classifyCode = 0 then
      if (env t).classifyOut = "logged_in".toList then false
      else if (env t).classifyOut = "failed".toList then false
      else ticksNonterminalM env k (t+1)
    else ticksNonterminalM env k (t+1)

theorem mac_stop_no_terminal_aux (env : Nat → MacTickEnv) :
    ∀ (k fuel t : Nat) (shown : Bool), k < fuel →
      ticksNonterminalM env k t = true → (env (t + k)).stop = true →
      countTerminal (monitorMacosFrom env fuel t shown) = 0 := by
  intro k
  induction k with
  | zero =>
    intro fuel t shown hk hnt hstop
    cases fuel with
    | zero => omega
    | succ f =>
      rw [Nat.add_zero] at hstop
      rw [monitorMacosFrom, if_pos hstop]
      rfl
  | succ k ih =>
    intro fuel t shown hk hnt hstop
    rw [ticksNonterminalM] at hnt
    by_cases hstop0 : (env t).stop = true
    · rw [if_pos hstop0] at hnt
      exact (Bool.false_ne_true hnt).elim
    · rw [if_neg hstop0] at hnt
      by_cases hdead0 : (env t).winCheckCode ≠ 0 ∨ (env t).winCheckOut = "0".toList
      · rw [if_pos hdead0] at hnt
        exact (Bool.false_ne_true hnt).elim
      · rw [if_neg hdead0] at hnt
        cases fuel with
        | zero => omega
        | succ f =>
          rw [monitorMacosFrom, if_neg hstop0, if_neg hdead0]
          have hstop1 : (env (t + 1 + k)).stop = true := by
            have ht : t + 1 + k = t + (k + 1) := by omega
            rw [ht]; exact hstop
          by_cases hcc : (env t).classifyCode = 0
          · rw [if_pos hcc] at hnt
            rw [if_pos hcc]
            by_cases h1 : (env t).classifyOut = "logged_in".toList
            · rw [if_pos h1] at hnt
              exact (Bool.false_ne_true hnt).elim
            · rw [if_neg h1] at hnt
              rw [if_neg h1]
              by_cases h2 : (env t).classifyOut = "failed".toList
              · rw [if_pos h2] at hnt
                exact (Bool.false_ne_true hnt).elim
              · rw [if_neg h2] at hnt
                rw [if_neg h2]
                by_cases h3 : (env t).classifyOut = "mobile_2fa".toList
                · rw [if_pos h3]
                  cases shown
                  · simp only [Bool.false_eq_true, if_false, countTerminal]
                    exact ih f (t + 1) true (by omega) hnt hstop1
                  · simp only [if_true]
                    exact ih f (t + 1) true (by omega) hnt hstop1
                · rw [if_neg h3]
                  exact ih f (t + 1) shown (by omega) hnt hstop1
          · rw [if_neg hcc] at hnt
            rw [if_neg hcc]
            exact ih f (t + 1) shown (by omega) hnt hstop1

/-- C10 (amended): on both platforms, if the stop flag is observed set at
the top of tick `k` after `k` non-terminal ticks, the login-monitoring
loop exits without invoking any of the four terminal callbacks — in
particular the timeout callback never fires, since that requires the full
tick budget.  (The original claim said none of the five callbacks fires;
the mobile-confirmation callback may already have fired on an earlier
tick.) -/
theorem stop_flag_prevents_terminal_callbacks :
    (∀ (npath : String → String) (env : Nat → WinTickEnv) (files : List String)
        (maxChecks : Nat) (initFs : String → Option (List Char)) (k : Nat),
      k < maxChecks →
      ticksNonterminalW npath env files k 0 (initLogPositions npath files initFs) = true →
      (env k).stop = true →
      countTerminal (monitorWindows npath env files maxChecks initFs) = 0) ∧
    (∀ (menv : Nat → MacTickEnv) (maxChecks k : Nat),
      k < maxChecks → ticksNonterminalM menv k 0 = true → (menv k).stop = true →
      countTerminal (monitorMacos menv maxChecks) = 0) :=
  ⟨fun npath env files maxChecks initFs k hk hnt hstop =>
     win_stop_no_terminal_aux npath env files k maxChecks 0
       (initLogPositions npath files initFs) false hk hnt (by simpa using hstop),
   fun menv maxChecks k hk hnt hstop =>
     mac_stop_no_terminal_aux menv k maxChecks 0 false hk hnt (by simpa using hstop)⟩

/-- File system in which the connection log shows a pending mobile
confirmation. -/
def mobileFs : String → Option (List Char) := fun q =>
  if q == "logs/connection_log.txt" then some ("Waiting for confirmation".toList) else none

/-- Environment: tick 0 observes a live process and the mobile-pending
log line; from tick 1 on the stop flag is set. -/
def stopAfterMobileEnv : Nat → WinTickEnv := fun t =>
  if t = 0 then ⟨false, some ("steamcmd.exe".toList), mobileFs⟩
  else ⟨true, some ("steamcmd.exe".toList), mobileFs⟩

/-- C10 counterexample: the stop flag is observed at the top of tick 1,
before any terminal classification, yet the session has already invoked
the mobile-confirmation callback on tick 0 — so "invokes none of the five
callbacks for that session" is false as stated. -/
theorem stop_after_mobile_callback_already_fired :
    ticksNonterminalW idPath stopAfterMobileEnv ["logs/connection_log.txt"] 1 0
      (initLogPositions idPath ["logs/connection_log.txt"] (fun _ => none)) = true ∧
    (stopAfterMobileEnv 1).stop = true ∧
    monitorWindows idPath stopAfterMobileEnv ["logs/connection_log.txt"] 5 (fun _ => none) =
      [MonitorEvent.onMobile2fa] := by
  refine ⟨by decide, by decide, by decide⟩

/-- Environment for the macOS half: tick 0 observes a live window and the
mobile-pending classification output; from tick 1 on the stop flag is set. -/
def stopAfterMobileMacEnv : Nat → MacTickEnv := fun t =>
  if t = 0 then ⟨false, 0, "1".toList, 0, "mobile_2fa".toList⟩
  else ⟨true, 0, "1".toList, 0, "mobile_2fa".toList⟩

/-- Witness for the amended C10 theorem, exercising both platform halves
on sessions stopped at tick 1 after a non-terminal tick 0. -/
theorem stop_flag_prevents_terminal_callbacks_witness :
    (1 < 5 ∧
      countTerminal (monitorWindows idPath stopAfterMobileEnv
        ["logs/connection_log.txt"] 5 (fun _ => none)) = 0) ∧
    (1 < 5 ∧ countTerminal (monitorMacos stopAfterMobileMacEnv 5) = 0) :=
  ⟨⟨by decide,
    stop_flag_prevents_terminal_callbacks.1 idPath stopAfterMobileEnv
      ["logs/connection_log.txt"] 5 (fun _ => none) 1 (by decide) (by decide) (by decide)⟩,
   ⟨by decide,
    stop_flag_prevents_terminal_callbacks.2 stopAfterMobileMacEnv 5 1
      (by decide) (by decide) (by decide)⟩⟩

/-- Probe results consumed by the macOS branch of
`ConsoleMonitor.check_console_status` (src/platform_helpers.py lines
823-885): exit code and stripped stdout of the window-count osascript,
stripped stdout of the steamcmd-tab-search script, and whether pgrep ran
without exception and printed a process id. -/
structure MacConsoleProbes where
  countCode : Nat
  countOut : List Char
  tabOut : List Char
  pgrepOk : Bool
deriving DecidableEq

/-- Embedding of the macOS branch of `check_console_status`: a failed or
zero window-count probe closes at once; with windows present, a missing
steamcmd tab closes only after the grace period, but a missing steamcmd
process closes at once. -/
def checkConsoleStatusMac (p : MacConsoleProbes) (monitorCount gracePeriodChecks : Nat) :
    Bool :=
  if p.countCode ≠ 0 ∨ p.countOut = "0".toList then true
  else if p.tabOut ≠ "true".toList then decide (monitorCount > gracePeriodChecks)
  else if !p.pgrepOk then true
  else false

/-- Embedding of the Windows branch of `check_console_status`
(src/platform_helpers.py lines 887-911): `none` models a raising tasklist
call (caught, not closed); a returned output closes after the grace
period when it does not show `steamcmd.exe`. -/
def checkConsoleStatusWin (probe : Option (List Char))
    (monitorCount gracePeriodChecks : Nat) : Bool :=
  match probe with
  | none => false
  | some out =>
    if !(!out.isEmpty && pyContains out ("steamcmd.exe".toList)) then
      decide (monitorCount > gracePeriodChecks)
    else false

/-- The zero-window probe outcome on the very first check. -/
def zeroWindowProbes : MacConsoleProbes := ⟨0, "0".toList, [], true⟩

/-- C7 counterexample: on macOS a zero-window count on check 1 reports the
console closed although the configured grace period (5 checks) has not
elapsed, refuting "never reports Closed before the grace period". -/
theorem console_closed_during_grace :
    checkConsoleStatusMac zeroWindowProbes 1 5 = true ∧ 1 ≤ 5 := by
  refine ⟨by decide, by decide⟩

/-- C7 (amended): the grace period guards only the branches routed through
it: within the grace period the Windows branch never reports closed, and
the macOS branch never reports closed when the window-count probe
succeeded with a nonzero count and only the steamcmd tab is missing; a
failed or zero window-count probe, or a missing steamcmd process, reports
closed regardless of the grace period. -/
theorem grace_period_guards_not_found (monitorCount gracePeriodChecks : Nat)
    (hg : monitorCount ≤ gracePeriodChecks) :
    (∀ probe, checkConsoleStatusWin probe monitorCount gracePeriodChecks = false) ∧
    (∀ p : MacConsoleProbes, p.countCode = 0 → p.countOut ≠ "0".toList →
      p.tabOut ≠ "true".toList →
      checkConsoleStatusMac p monitorCount gracePeriodChecks = false) := by
  constructor
  · intro probe
    cases probe with
    | none => rfl
    | some out =>
      rw [checkConsoleStatusWin]
      split
      · simpa using hg
      · rfl
  · intro p hc ho ht
    rw [checkConsoleStatusMac, if_neg (by simp [hc]; exact ho), if_pos ht]
    simpa using hg

/-- Witness for the amended C7 theorem at check 1 of a 5-check grace
period. -/
theorem grace_period_guards_not_found_witness :
    1 ≤ 5 ∧
    checkConsoleStatusWin (some []) 1 5 = false ∧
    checkConsoleStatusMac ⟨0, "3".toList, "false".toList, true⟩ 1 5 = false :=
  ⟨by decide,
   (grace_period_guards_not_found 1 5 (by decide)).1 (some []),
   (grace_period_guards_not_found 1 5 (by decide)).2 ⟨0, "3".toList, "false".toList, true⟩
     rfl (by decide) (by decide)⟩

/-- Number of liveness checks the `monitor_console` loop of
src/console_monitor.py performs: the `while` guard re-reads the flags each
iteration, a closed observation breaks, and `fuel` bounds the observation
horizon. -/
def consoleLoopChecks (closedAt : Nat → Bool) : Nat → Nat → Nat
  | 0, _ => 0
  | fuel+1, n => if closedAt n then 1 else 1 + consoleLoopChecks closedAt fuel (n + 1)

/-- Whether the loop ever reaches the closed-detected branch. -/
def consoleLoopSawClosed (closedAt : Nat → Bool) : Nat → Nat → Bool
  | 0, _ => false
  | fuel+1, n => if closedAt n then true else consoleLoopSawClosed closedAt fuel (n + 1)

/-- Embedding of `start_console_monitor` / `monitor_console`
(src/console_monitor.py lines 13-127): the polling loop runs only while
`helper.is_logged_in and helper.steamcmd_terminal` holds; with the guard
false at entry the thread performs no checks and ends at once.  Returns
the number of liveness checks performed. -/
def monitorConsoleChecks (isLoggedIn steamcmdTerminal : Bool)
    (closedAt : Nat → Bool) (fuel : Nat) : Nat :=
  if isLoggedIn && steamcmdTerminal then consoleLoopChecks closedAt fuel 0 else 0

/-- Whether the `monitor_console` session ever detects the console closed. -/
def monitorConsoleSawClosed (isLoggedIn steamcmdTerminal : Bool)
    (closedAt : Nat → Bool) (fuel : Nat) : Bool :=
  if isLoggedIn && steamcmdTerminal then consoleLoopSawClosed closedAt fuel 0 else false

/-- C8 (code bug shown): started right after the console is launched —
when `login_to_steam_console` has just set `is_logged_in = False` — the
console monitor performs zero liveness checks and can never reach Closed,
for every probe behaviour and every observation horizon.  This contradicts
the stated (and commented) intent of monitoring the console independently
of login outcome, starting before login succeeds. -/
theorem console_monitor_dead_before_login (closedAt : Nat → Bool) (fuel : Nat) :
    monitorConsoleChecks false true closedAt fuel = 0 ∧
    monitorConsoleSawClosed false true closedAt fuel = false ∧
    monitorConsoleChecks true true (fun _ => true) 1 = 1 := by
  refine ⟨rfl, rfl, rfl⟩

/-- Witness evaluating the C8 theorem at a concrete probe. -/
theorem console_monitor_dead_before_login_witness :
    monitorConsoleChecks false true (fun _ => true) 7 = 0 ∧
    monitorConsoleSawClosed false true (fun _ => true) 7 = false ∧
    monitorConsoleChecks true true (fun _ => true) 1 = 1 :=
  console_monitor_dead_before_login (fun _ => true) 7

/-- The methods the class `ConsoleMonitor` actually defines
(src/platform_helpers.py lines 583-919). -/
def consoleMonitorMethodNames : List String :=
  ["check_steam_prompt", "wait_for_steam_prompt", "check_for_error_pattern",
   "check_console_status"]

/-- The attribute `UploadManager._check_upload_complete`
(src/upload_manager.py line 431) looks up on `ConsoleMonitor`. -/
def uploadCompleteCallee : String := "check_for_pattern"

/-- Python exceptions relevant to the model. -/
inductive PyExc where
  | attributeError
deriving DecidableEq

/-- Embedding of `_check_upload_complete`: resolving a missing attribute
raises `AttributeError`; were the attribute present, some boolean would
be returned. -/
def checkUploadComplete : Except PyExc Bool :=
  if uploadCompleteCallee ∈ consoleMonitorMethodNames then Except.ok false
  else Except.error PyExc.attributeError

/-- Embedding of the polling loop of
`UploadManager._monitor_upload_completion` (src/upload_manager.py lines
373-417): the loop body is not wrapped in any exception handler, so an
error from the per-tick check propagates and ends the monitor thread;
`ok true` is the completion dialog path, `ok false` the timeout path. -/
def monitorUploadCompletionLoop : Nat → Except PyExc Bool
  | 0 => Except.ok false
  | fuel+1 =>
    match checkUploadComplete with
    | Except.error e => Except.error e
    | Except.ok true => Except.ok true
    | Except.ok false => monitorUploadCompletionLoop fuel

/-- C5 (code bug shown): the per-tick check of the upload-completion
monitor calls `ConsoleMonitor.check_for_pattern`, which is not among the
methods `ConsoleMonitor` defines, so the very first tick raises
`AttributeError` and — the loop having no per-iteration handler — the
monitor thread dies instead of continuing to the next tick. -/
theorem upload_monitor_first_tick_raises (fuel : Nat) :
    uploadCompleteCallee ∉ consoleMonitorMethodNames ∧
    checkUploadComplete = Except.error PyExc.attributeError ∧
    monitorUploadCompletionLoop (fuel + 1) = Except.error PyExc.attributeError := by
  refine ⟨by decide, rfl, ?_⟩
  rw [monitorUploadCompletionLoop]
  rw [show checkUploadComplete = Except.error PyExc.attributeError from rfl]

/-- Witness evaluating the C5 theorem at the real 600-tick budget. -/
theorem upload_monitor_first_tick_raises_witness :
    uploadCompleteCallee ∉ consoleMonitorMethodNames ∧
    checkUploadComplete = Except.error PyExc.attributeError ∧
    monitorUploadCompletionLoop 600 = Except.error PyExc.attributeError :=
  upload_monitor_first_tick_raises 599

/-- Embedding of Python `str.replace` (left-to-right, non-overlapping);
`fuel` is the remaining scan length. -/
def pyReplaceAux (old new : List Char) : Nat → List Char → List Char
  | _, [] => []
  | 0, s => s
  | fuel+1, c :: rest =>
    if !old.isEmpty && old.isPrefixOf (c :: rest) then
      new ++ pyReplaceAux old new fuel (List.drop (old.length - 1) rest)
    else c :: pyReplaceAux old new fuel rest

/-- Python `s.replace(old, new)` for nonempty `old`. -/
def pyReplace (old new s : List Char) : List Char :=
  pyReplaceAux old new s.length s

/-- The Windows escaping `command.replace(chr(34), chr(96) + chr(34)).
replace(chr(39), chr(39) * 2)` of `CommandSender._send_windows`. -/
def escapeWinCommand (cmd : List Char) : List Char :=
  pyReplace [Char.ofNat 39] [Char.ofNat 39, Char.ofNat 39]
    (pyReplace [Char.ofNat 34] [Char.ofNat 96, Char.ofNat 34] cmd)

/-- The macOS escaping `command.replace(chr(92), chr(92) * 2).
replace(chr(34), chr(92) + chr(34))` of `CommandSender._send_macos`. -/
def escapeMacCommand (cmd : List Char) : List Char :=
  pyReplace [Char.ofNat 34] [Char.ofNat 92, Char.ofNat 34]
    (pyReplace [Char.ofNat 92] [Char.ofNat 92, Char.ofNat 92] cmd)

/-- The input-delivery steps the embedded scripts of
src/command_sender.py perform once a target window was found. -/
inductive SendAction where
  | saveFocus
  | focusTarget
  | sleepMs (ms : Nat)
  | setClipboard (text : List Char)
  | disableIme
  | pasteKeystroke
  | typeText (text : List Char)
  | pressEnter
  | restoreFocus
  | activateTerminalWindow
deriving DecidableEq

/-- Step sequence of the PowerShell script of `CommandSender._send_windows`
(src/command_sender.py lines 124-157): save focus, focus the target,
stage the escaped command on the clipboard, force the IME off, send a
paste keystroke plus enter, restore focus. -/
def sendWindowsActions (cmd : List Char) : List SendAction :=
  [.saveFocus, .focusTarget, .sleepMs 100, .setClipboard (escapeWinCommand cmd),
   .disableIme, .sleepMs 50, .pasteKeystroke, .pressEnter, .restoreFocus]

/-- Step sequence of the AppleScript of `CommandSender._send_macos`
(src/command_sender.py lines 243-259): raise and activate the Terminal
window, then have System Events type the escaped command literally with
`keystroke`, then press return. -/
def sendMacosActions (cmd : List Char) : List SendAction :=
  [.activateTerminalWindow, .sleepMs 500, .typeText (escapeMacCommand cmd),
   .sleepMs 100, .pressEnter]

/-- Whether a step stages text on the shared clipboard. -/
def isClipboardStage : SendAction → Bool
  | .setClipboard _ => true
  | _ => false

/-- Whether a step types literal characters into the target window. -/
def isTypeText : SendAction → Bool
  | .typeText _ => true
  | _ => false

/-- C9 counterexample: on macOS, `send` types the command text literally
via a System Events keystroke and never touches the clipboard nor sends a
paste keystroke — refuting "on every supported platform send stages the
command via the clipboard and dispatches a paste keystroke, never typing
literal characters". -/
theorem macos_send_types_literal_text :
    (sendMacosActions ("help".toList)).any isTypeText = true ∧
    (sendMacosActions ("help".toList)).any isClipboardStage = false ∧
    SendAction.pasteKeystroke ∉ sendMacosActions ("help".toList) := by
  refine ⟨by decide, by decide, by decide⟩

/-- C9 (amended): the Windows sender stages the escaped command on the
shared clipboard and dispatches a paste keystroke, typing no literal
text; the macOS sender instead types the escaped command literally via
keystroke, staging nothing on the clipboard and sending no paste
keystroke. -/
theorem send_staging_per_platform (cmd : List Char) :
    SendAction.setClipboard (escapeWinCommand cmd) ∈ sendWindowsActions cmd ∧
    SendAction.pasteKeystroke ∈ sendWindowsActions cmd ∧
    (sendWindowsActions cmd).any isTypeText = false ∧
    SendAction.typeText (escapeMacCommand cmd) ∈ sendMacosActions cmd ∧
    (sendMacosActions cmd).any isClipboardStage = false ∧
    SendAction.pasteKeystroke ∉ sendMacosActions cmd := by
  refine ⟨?_, ?_, ?_, ?_, ?_, ?_⟩ <;>
    simp [sendWindowsActions, sendMacosActions, isTypeText, isClipboardStage]

/-- Witness instantiating the amended C9 theorem at the upload command. -/
theorem send_staging_per_platform_witness :
    SendAction.setClipboard (escapeWinCommand ("run_app_build app.vdf".toList)) ∈
      sendWindowsActions ("run_app_build app.vdf".toList) ∧
    SendAction.pasteKeystroke ∈ sendWindowsActions ("run_app_build app.vdf".toList) ∧
    (sendWindowsActions ("run_app_build app.vdf".toList)).any isTypeText = false ∧
    SendAction.typeText (escapeMacCommand ("run_app_build app.vdf".toList)) ∈
      sendMacosActions ("run_app_build app.vdf".toList) ∧
    (sendMacosActions ("run_app_build app.vdf".toList)).any isClipboardStage = false ∧
    SendAction.pasteKeystroke ∉ sendMacosActions ("run_app_build app.vdf".toList) :=
  send_staging_per_platform ("run_app_build app.vdf".toList)
